import Mathlib

/-!
Verification of the Flask carbon-emission monitor.

Shallow embedding of the repository's core components:
* `CarbonCalculator` (src/carbon_calculator.py): derived-metrics calculator.
* `BPFNetworkMonitor` (src/bpf_monitor.py): dual-mode network/process monitor.
* the history buffer of `start_background_monitoring.collect_data` (src/app.py).

Numeric values are modelled over `ℚ` (the Python code computes with floats;
all the constants and the claim scenarios are exactly representable, and the
formulas are compositions of field operations).  Calls into the environment
(`time.time()`, `psutil.cpu_percent`, `psutil.virtual_memory`,
`psutil.net_io_counters`, `psutil.net_connections`, the BCC/eBPF toolchain)
are modelled as explicit oracle inputs, one per call site, in source order.
-/

namespace CarbonEmission

/-! ## Derived-metrics calculator (src/carbon_calculator.py) -/

namespace CarbonCalculator

/-- `self.GRID_CARBON_INTENSITY = 0.5` (kg CO2 per kWh). -/
def GRID_CARBON_INTENSITY : ℚ := 1/2

/-- `self.CPU_TDP = 65` (watts). -/
def CPU_TDP : ℚ := 65

/-- `self.NETWORK_POWER_PER_GB = 0.06` (kWh per GB). -/
def NETWORK_POWER_PER_GB : ℚ := 6/100

/-- `self.IDLE_POWER = 50` (watts). -/
def IDLE_POWER : ℚ := 50

/-- Mutable state of a `CarbonCalculator` instance: `self.start_time`
(set to `time.time()` in `__init__`) and `self.total_carbon`
(initialised to `0`, overwritten by each `get_carbon_metrics` call). -/
structure CalcState where
  start_time : ℚ
  total_carbon : ℚ
  deriving DecidableEq

/-- Environment oracle for one `get_carbon_metrics` call.  The source performs
three separate blocking `psutil.cpu_percent(interval=1)` samples: at line 49
(the reported usage), inside `calculate_cpu_power` called at line 50, and
inside `calculate_cpu_power` again via `calculate_total_energy` at line 51;
they are independent readings and need not agree. -/
structure CalcEnv where
  now : ℚ
  cpuSample1 : ℚ
  cpuSample2 : ℚ
  cpuSample3 : ℚ
  memPercent : ℚ
  memUsed : ℚ
  memTotal : ℚ
  deriving DecidableEq

/-- The `network_stats` dict as consumed by the calculator: it only ever reads
`network_stats.get('total_bytes', 0)`, so we track whether the key
`total_bytes` is present and its value. -/
structure NetworkStatsDict where
  total_bytes : Option ℚ
  deriving DecidableEq

/-- `CarbonCalculator.calculate_cpu_power`, with the
`psutil.cpu_percent(interval=1)` sample it takes passed in as `cpu_percent`:
`power_watts = self.IDLE_POWER + (self.CPU_TDP * (cpu_percent / 100))`. -/
def calculate_cpu_power (cpu_percent : ℚ) : ℚ :=
  IDLE_POWER + CPU_TDP * (cpu_percent / 100)

/-- `CarbonCalculator.calculate_network_carbon`:
`gb = bytes/(1024**3)`, `energy = gb * NETWORK_POWER_PER_GB`,
`carbon_kg = energy * GRID_CARBON_INTENSITY`, returns `carbon_kg * 1000`. -/
def calculate_network_carbon (bytes_transferred : ℚ) : ℚ :=
  let gb_transferred := bytes_transferred / 1024 ^ 3
  let energy_kwh := gb_transferred * NETWORK_POWER_PER_GB
  let carbon_kg := energy_kwh * GRID_CARBON_INTENSITY
  carbon_kg * 1000

/-- `CarbonCalculator.calculate_total_energy`, with the CPU sample taken by
its inner `calculate_cpu_power` call passed in as `cpu_sample`:
`energy_kwh = (cpu_power * duration_hours) / 1000`. -/
def calculate_total_energy (cpu_sample duration_hours : ℚ) : ℚ :=
  calculate_cpu_power cpu_sample * duration_hours / 1000

/-- The `cpu` block of the returned metrics dict. -/
structure CpuMetrics where
  usage_percent : ℚ
  power_watts : ℚ
  energy_kwh : ℚ
  carbon_grams : ℚ
  deriving DecidableEq

/-- The `network` block of the returned metrics dict. -/
structure NetworkMetrics where
  total_gb : ℚ
  carbon_grams : ℚ
  deriving DecidableEq

/-- The `memory` block of the returned metrics dict. -/
structure MemoryMetrics where
  usage_percent : ℚ
  used_gb : ℚ
  total_gb : ℚ
  deriving DecidableEq

/-- The `total` block of the returned metrics dict. -/
structure TotalMetrics where
  carbon_grams : ℚ
  carbon_kg : ℚ
  runtime_hours : ℚ
  total_energy_kwh : ℚ
  deriving DecidableEq

/-- The dict returned by `get_carbon_metrics`. -/
structure CarbonMetrics where
  cpu : CpuMetrics
  network : NetworkMetrics
  memory : MemoryMetrics
  total : TotalMetrics
  deriving DecidableEq

/-- `CarbonCalculator.get_carbon_metrics(network_stats)`, lines 43-88 of
src/carbon_calculator.py.  Returns the metrics dict and the updated calculator
state (`self.total_carbon = total_carbon`). -/
def get_carbon_metrics (st : CalcState) (env : CalcEnv)
    (network_stats : NetworkStatsDict) : CarbonMetrics × CalcState :=
  let runtime_hours := (env.now - st.start_time) / 3600
  let cpu_percent := env.cpuSample1
  let cpu_power := calculate_cpu_power env.cpuSample2
  let cpu_energy := calculate_total_energy env.cpuSample3 runtime_hours
  let cpu_carbon := cpu_energy * GRID_CARBON_INTENSITY * 1000
  let total_bytes := network_stats.total_bytes.getD 0
  let network_carbon := calculate_network_carbon total_bytes
  let memory_percent := env.memPercent
  let total_carbon := cpu_carbon + network_carbon
  (⟨⟨cpu_percent, cpu_power, cpu_energy, cpu_carbon⟩,
    ⟨total_bytes / 1024 ^ 3, network_carbon⟩,
    ⟨memory_percent, env.memUsed / 1024 ^ 3, env.memTotal / 1024 ^ 3⟩,
    ⟨total_carbon, total_carbon / 1000, runtime_hours, cpu_energy⟩⟩,
   { st with total_carbon := total_carbon })

/-- One entry of the `savings` table in `estimate_savings`. -/
structure SavingsEstimate where
  name : String
  description : String
  potential_reduction_percent : ℚ
  estimated_savings_grams : ℚ
  deriving DecidableEq

/-- `CarbonCalculator.estimate_savings(optimization_type)`, lines 90-113 of
src/carbon_calculator.py: a fixed table keyed by the optimization type,
with `savings.get(optimization_type, savings['reduce_cpu'])` lookup. -/
def estimate_savings (st : CalcState) (optimization_type : String) :
    SavingsEstimate :=
  if optimization_type = "reduce_cpu" then
    ⟨"Reduce CPU Usage",
     "Limit background processes and CPU-intensive tasks",
     30, st.total_carbon * (30/100)⟩
  else if optimization_type = "optimize_network" then
    ⟨"Optimize Network Traffic",
     "Compress data, cache content, reduce unnecessary requests",
     25, st.total_carbon * (25/100)⟩
  else if optimization_type = "power_management" then
    ⟨"Enable Power Management",
     "Use power-saving modes, reduce screen brightness, sleep idle processes",
     40, st.total_carbon * (40/100)⟩
  else
    ⟨"Reduce CPU Usage",
     "Limit background processes and CPU-intensive tasks",
     30, st.total_carbon * (30/100)⟩

end CarbonCalculator

/-! ## Dual-mode network monitor (src/bpf_monitor.py) -/

namespace BPFNetworkMonitor

/-- One per-process bucket of `self.process_stats`
(`defaultdict(lambda: {'packets': 0, 'bytes': 0})`). -/
structure ProcBucket where
  packets : ℕ
  bytes : ℕ
  deriving DecidableEq

/-- Mutable state of a `BPFNetworkMonitor` instance.  `bpf` records whether
`self.bpf` is non-`None` (the source only ever tests its truthiness after
`__init__` sets it to `None`). -/
structure MonitorState where
  packet_count : ℕ
  bytes_sent : ℕ
  bytes_received : ℕ
  active_connections : ℕ
  process_stats : String → ProcBucket
  running : Bool
  bpf : Bool

/-- The state built by `BPFNetworkMonitor.__init__`. -/
def initState : MonitorState :=
  { packet_count := 0
    bytes_sent := 0
    bytes_received := 0
    active_connections := 0
    process_stats := fun _ => ⟨0, 0⟩
    running := false
    bpf := false }

/-- One reading of the OS-level counters consumed by `get_stats`:
the fields of `psutil.net_io_counters()` that the source reads, plus
`len(psutil.net_connections())`. -/
structure OsCounters where
  packets_sent : ℕ
  packets_recv : ℕ
  bytes_sent : ℕ
  bytes_recv : ℕ
  connCount : ℕ
  deriving DecidableEq

/-- The dict returned by `get_stats`. -/
structure Snapshot where
  packet_count : ℕ
  bytes_sent : ℕ
  bytes_received : ℕ
  total_bytes : ℕ
  active_connections : ℕ
  process_stats : String → ProcBucket

/-- Environment oracle for `start_monitoring`: whether `BPF(text=...)`
construction succeeds, and whether each of the three `attach_kprobe` calls
(tcp_sendmsg, tcp_recvmsg, udp_sendmsg, attempted in that order) succeeds.
Any raised exception is caught by the `except` clause, which prints and
returns `False`. -/
structure BpfEnv where
  constructOk : Bool
  attachTcpSendOk : Bool
  attachTcpRecvOk : Bool
  attachUdpSendOk : Bool
  deriving DecidableEq

/-- `BPFNetworkMonitor.start_monitoring`, lines 107-129 of src/bpf_monitor.py.
If `BPF(text=...)` raises, `self.bpf` keeps its prior value (`None` on a fresh
instance) and `False` is returned.  If construction succeeds, `self.bpf` is
assigned first; a subsequent `attach_kprobe` failure is caught and `False` is
returned, but `self.bpf` stays assigned and `self.running` stays `False`.
On full success `self.running = True`, the event thread starts, and `True`
is returned. -/
def start_monitoring (st : MonitorState) (env : BpfEnv) : Bool × MonitorState :=
  if env.constructOk then
    let st1 := { st with bpf := true }
    if env.attachTcpSendOk && env.attachTcpRecvOk && env.attachUdpSendOk then
      (true, { st1 with running := true })
    else
      (false, st1)
  else
    (false, st)

/-- One decoded perf-buffer event as read by `handle_event`:
`event_type` (1 = TCP send, 2 = TCP receive, 3 = UDP send), `bytes`, and the
decoded `comm` process label. -/
structure Event where
  event_type : ℕ
  bytes : ℕ
  comm : String
  deriving DecidableEq

/-- `handle_event` inside `BPFNetworkMonitor._process_events`, lines 133-145
of src/bpf_monitor.py: every event increments `packet_count`; send events
(types 1 and 3) add `event.bytes` to `bytes_sent` and update the emitting
process's bucket; receive events (type 2) add the fixed estimate 1024 to
`bytes_received`. -/
def handle_event (st : MonitorState) (e : Event) : MonitorState :=
  let st := { st with packet_count := st.packet_count + 1 }
  if e.event_type = 1 ∨ e.event_type = 3 then
    { st with
      bytes_sent := st.bytes_sent + e.bytes
      process_stats := fun c =>
        if c = e.comm then
          ⟨(st.process_stats c).packets + 1, (st.process_stats c).bytes + e.bytes⟩
        else st.process_stats c }
  else if e.event_type = 2 then
    { st with bytes_received := st.bytes_received + 1024 }
  else
    st

/-- The event-ingestion loop of `_process_events` applied to a finite batch of
decoded events, in order. -/
def process_events (st : MonitorState) (events : List Event) : MonitorState :=
  events.foldl handle_event st

/-- `BPFNetworkMonitor.get_stats`, lines 156-177 of src/bpf_monitor.py.
When `self.bpf` is falsy the counters are overwritten from
`psutil.net_io_counters()`; either way `active_connections` is refreshed from
`len(psutil.net_connections())` and the snapshot dict is assembled with
`total_bytes = self.bytes_sent + self.bytes_received`. -/
def get_stats (st : MonitorState) (os : OsCounters) : Snapshot × MonitorState :=
  let st1 :=
    if st.bpf then st
    else
      { st with
        packet_count := os.packets_sent + os.packets_recv
        bytes_sent := os.bytes_sent
        bytes_received := os.bytes_recv }
  let st2 := { st1 with active_connections := os.connCount }
  (⟨st2.packet_count, st2.bytes_sent, st2.bytes_received,
    st2.bytes_sent + st2.bytes_received, st2.active_connections,
    st2.process_stats⟩, st2)

/-- One `ProcessInfo` entry as assembled by `get_process_list` from
`proc.info`. -/
structure ProcInfo where
  pid : ℕ
  name : String
  cpu : ℚ
  memory : ℚ
  deriving DecidableEq

/-- One process yielded by `psutil.process_iter` together with whether reading
its info raises `psutil.NoSuchProcess` / `psutil.AccessDenied` (the process
vanished or is inaccessible): `ok = false` means the read raises and the
`except` clause skips the entry. -/
structure ProcEntry where
  ok : Bool
  info : ProcInfo
  deriving DecidableEq

/-- Descending-CPU ordering used by
`sorted(processes, key=lambda x: x['cpu'], reverse=True)`. -/
def cpuGe (a b : ProcInfo) : Prop := b.cpu ≤ a.cpu

instance : DecidableRel cpuGe := fun a b =>
  inferInstanceAs (Decidable (b.cpu ≤ a.cpu))

instance : IsTotal ProcInfo cpuGe := ⟨fun a b => le_total b.cpu a.cpu⟩

instance : IsTrans ProcInfo cpuGe := ⟨fun _ _ _ h1 h2 => le_trans h2 h1⟩

/-- `BPFNetworkMonitor.get_process_list`, lines 179-194 of src/bpf_monitor.py:
collect the infos of the processes whose info read does not raise, sort
descending by CPU (Python `sorted` is a stable sort; modelled by the stable
`List.insertionSort`), and keep the first 20. -/
def get_process_list (procs : List ProcEntry) : List ProcInfo :=
  let processes := procs.filterMap fun p => if p.ok then some p.info else none
  (processes.insertionSort cpuGe).take 20

end BPFNetworkMonitor

/-! ## Rolling history buffer (src/app.py, `start_background_monitoring`) -/

namespace HistoryBuffer

/-- The values appended to the five series by one `collect_data` cycle
(lines 74-79 of src/app.py). -/
structure HistoryPoint where
  ts : String
  cpu : ℚ
  net : ℚ
  carbon : ℚ
  energy : ℚ
  deriving DecidableEq

/-- The `historical_data` dict of five parallel series. -/
structure HistoricalData where
  timestamps : List String
  cpu_usage : List ℚ
  network_bytes : List ℚ
  carbon_emissions : List ℚ
  energy_consumption : List ℚ
  deriving DecidableEq

/-- The initial `historical_data` (all series empty, lines 30-36 of
src/app.py). -/
def emptyData : HistoricalData := ⟨[], [], [], [], []⟩

/-- The per-series trim of lines 82-84 of src/app.py:
`if len(l) > 100: l = l[-100:]` — keep the last 100 entries.  Python's
`l[-100:]` is `l` with all but the final 100 elements dropped. -/
def trimSeries {α : Type} (l : List α) : List α :=
  if 100 < l.length then l.drop (l.length - 100) else l

/-- One iteration of the `collect_data` loop body (lines 74-84 of src/app.py):
append one value to each of the five series, then trim each series to its
last 100 entries. -/
def collect_cycle (hd : HistoricalData) (pt : HistoryPoint) : HistoricalData :=
  { timestamps := trimSeries (hd.timestamps ++ [pt.ts])
    cpu_usage := trimSeries (hd.cpu_usage ++ [pt.cpu])
    network_bytes := trimSeries (hd.network_bytes ++ [pt.net])
    carbon_emissions := trimSeries (hd.carbon_emissions ++ [pt.carbon])
    energy_consumption := trimSeries (hd.energy_consumption ++ [pt.energy]) }

/-- Running the collection loop over a finite sequence of cycles, starting
from the initial empty `historical_data`. -/
def run_collection (pts : List HistoryPoint) : HistoricalData :=
  pts.foldl collect_cycle emptyData

/-- Appending one value to a single series and trimming: the action of
`collect_cycle` on each individual series. -/
def appendTrim {α : Type} (l : List α) (x : α) : List α :=
  trimSeries (l ++ [x])

end HistoryBuffer

/-! ## Claims -/

open CarbonCalculator BPFNetworkMonitor HistoryBuffer

/-- Claim C2: for every call to `get_stats`, in both kernel-probe mode and
polling fallback mode (i.e. for every monitor state, whatever `self.bpf` is),
the returned snapshot satisfies
`total_bytes = bytes_sent + bytes_received`. -/
theorem claim_C2_total_bytes_sum (st : MonitorState) (os : OsCounters) :
    (get_stats st os).1.total_bytes =
      (get_stats st os).1.bytes_sent + (get_stats st os).1.bytes_received := rfl

/-- Claim C5: `estimate_savings` returns `potential_reduction_percent` 30 for
`reduce_cpu`, 25 for `optimize_network`, 40 for `power_management`, each with
`estimated_savings_grams` equal to the stored `total_carbon` times that
percentage over 100, and any other optimization type yields the `reduce_cpu`
table entry. -/
theorem claim_C5_estimate_savings (st : CalcState) (t : String)
    (h1 : t ≠ "reduce_cpu") (h2 : t ≠ "optimize_network")
    (h3 : t ≠ "power_management") :
    ((estimate_savings st "reduce_cpu").potential_reduction_percent = 30 ∧
      (estimate_savings st "reduce_cpu").estimated_savings_grams =
        st.total_carbon * (30 / 100)) ∧
    ((estimate_savings st "optimize_network").potential_reduction_percent = 25 ∧
      (estimate_savings st "optimize_network").estimated_savings_grams =
        st.total_carbon * (25 / 100)) ∧
    ((estimate_savings st "power_management").potential_reduction_percent = 40 ∧
      (estimate_savings st "power_management").estimated_savings_grams =
        st.total_carbon * (40 / 100)) ∧
    estimate_savings st t = estimate_savings st "reduce_cpu" := by
  refine ⟨⟨rfl, rfl⟩, ⟨rfl, rfl⟩, ⟨rfl, rfl⟩, ?_⟩
  simp [estimate_savings, h1, h2, h3]

/-- Witness for C5 at the unknown optimization type `"defrag"`. -/
theorem claim_C5_estimate_savings_witness :
    ("defrag" ≠ "reduce_cpu" ∧ "defrag" ≠ "optimize_network" ∧
      "defrag" ≠ "power_management") ∧
    estimate_savings ⟨0, 80⟩ "defrag" = estimate_savings ⟨0, 80⟩ "reduce_cpu" :=
  ⟨⟨by decide, by decide, by decide⟩,
    (claim_C5_estimate_savings ⟨0, 80⟩ "defrag" (by decide) (by decide)
      (by decide)).2.2.2⟩

/-- Claim C10: when the input stats dict lacks the `total_bytes` key,
`get_carbon_metrics` treats the transferred bytes as 0, so
`network.total_gb = 0`, `network.carbon_grams = 0`, and `total.carbon_grams`
equals `cpu.carbon_grams` alone. -/
theorem claim_C10_missing_total_bytes (st : CalcState) (env : CalcEnv)
    (ns : NetworkStatsDict) (h : ns.total_bytes = none) :
    (get_carbon_metrics st env ns).1.network.total_gb = 0 ∧
    (get_carbon_metrics st env ns).1.network.carbon_grams = 0 ∧
    (get_carbon_metrics st env ns).1.total.carbon_grams =
      (get_carbon_metrics st env ns).1.cpu.carbon_grams := by
  simp [get_carbon_metrics, calculate_network_carbon, h]

/-- Witness for C10 on a concrete stats dict without the `total_bytes` key. -/
theorem claim_C10_missing_total_bytes_witness :
    (NetworkStatsDict.mk none).total_bytes = none ∧
    ((get_carbon_metrics ⟨0, 0⟩ ⟨7200, 10, 20, 30, 40, 50, 60⟩
        (NetworkStatsDict.mk none)).1.network.total_gb = 0 ∧
      (get_carbon_metrics ⟨0, 0⟩ ⟨7200, 10, 20, 30, 40, 50, 60⟩
        (NetworkStatsDict.mk none)).1.network.carbon_grams = 0 ∧
      (get_carbon_metrics ⟨0, 0⟩ ⟨7200, 10, 20, 30, 40, 50, 60⟩
        (NetworkStatsDict.mk none)).1.total.carbon_grams =
        (get_carbon_metrics ⟨0, 0⟩ ⟨7200, 10, 20, 30, 40, 50, 60⟩
          (NetworkStatsDict.mk none)).1.cpu.carbon_grams) :=
  ⟨rfl, claim_C10_missing_total_bytes ⟨0, 0⟩ ⟨7200, 10, 20, 30, 40, 50, 60⟩
    (NetworkStatsDict.mk none) rfl⟩

/-- Claim C1: with all CPU utilization samples reading 0 percent, exactly one
hour of elapsed runtime, and an input snapshot with
`total_bytes = 1_000_000_000`, the returned metrics have
`cpu.power_watts = 50`, `cpu.energy_kwh = 0.05`, `cpu.carbon_grams = 25`,
`network.carbon_grams = (10^9 / 2^30) * 0.06 * 0.5 * 1000`, and
`total.carbon_grams` the sum of the cpu and network carbon grams. -/
theorem claim_C1_scenario (st : CalcState) (env : CalcEnv)
    (ns : NetworkStatsDict)
    (h1 : env.cpuSample1 = 0) (h2 : env.cpuSample2 = 0)
    (h3 : env.cpuSample3 = 0) (hrt : env.now - st.start_time = 3600)
    (hb : ns.total_bytes = some 1000000000) :
    (get_carbon_metrics st env ns).1.cpu.power_watts = 50 ∧
    (get_carbon_metrics st env ns).1.cpu.energy_kwh = 0.05 ∧
    (get_carbon_metrics st env ns).1.cpu.carbon_grams = 25 ∧
    (get_carbon_metrics st env ns).1.network.carbon_grams =
      (10 ^ 9 / 2 ^ 30) * 0.06 * 0.5 * 1000 ∧
    (get_carbon_metrics st env ns).1.total.carbon_grams =
      (get_carbon_metrics st env ns).1.cpu.carbon_grams +
        (get_carbon_metrics st env ns).1.network.carbon_grams := by
  simp only [get_carbon_metrics, calculate_total_energy, calculate_cpu_power,
    calculate_network_carbon, h1, h2, h3, hrt, hb, Option.getD_some]
  norm_num [GRID_CARBON_INTENSITY, CPU_TDP, NETWORK_POWER_PER_GB, IDLE_POWER]

/-- Witness for C1 at a concrete environment realizing the scenario. -/
theorem claim_C1_scenario_witness :
    ((CalcEnv.mk 3600 0 0 0 35 4 8).cpuSample1 = 0 ∧
      (CalcEnv.mk 3600 0 0 0 35 4 8).cpuSample2 = 0 ∧
      (CalcEnv.mk 3600 0 0 0 35 4 8).cpuSample3 = 0 ∧
      (CalcEnv.mk 3600 0 0 0 35 4 8).now - (CalcState.mk 0 0).start_time = 3600 ∧
      (NetworkStatsDict.mk (some 1000000000)).total_bytes = some 1000000000) ∧
    ((get_carbon_metrics ⟨0, 0⟩ (CalcEnv.mk 3600 0 0 0 35 4 8)
        (NetworkStatsDict.mk (some 1000000000))).1.cpu.power_watts = 50 ∧
      (get_carbon_metrics ⟨0, 0⟩ (CalcEnv.mk 3600 0 0 0 35 4 8)
        (NetworkStatsDict.mk (some 1000000000))).1.cpu.energy_kwh = 0.05 ∧
      (get_carbon_metrics ⟨0, 0⟩ (CalcEnv.mk 3600 0 0 0 35 4 8)
        (NetworkStatsDict.mk (some 1000000000))).1.cpu.carbon_grams = 25 ∧
      (get_carbon_metrics ⟨0, 0⟩ (CalcEnv.mk 3600 0 0 0 35 4 8)
        (NetworkStatsDict.mk (some 1000000000))).1.network.carbon_grams =
        (10 ^ 9 / 2 ^ 30) * 0.06 * 0.5 * 1000 ∧
      (get_carbon_metrics ⟨0, 0⟩ (CalcEnv.mk 3600 0 0 0 35 4 8)
        (NetworkStatsDict.mk (some 1000000000))).1.total.carbon_grams =
        (get_carbon_metrics ⟨0, 0⟩ (CalcEnv.mk 3600 0 0 0 35 4 8)
          (NetworkStatsDict.mk (some 1000000000))).1.cpu.carbon_grams +
          (get_carbon_metrics ⟨0, 0⟩ (CalcEnv.mk 3600 0 0 0 35 4 8)
            (NetworkStatsDict.mk (some 1000000000))).1.network.carbon_grams) :=
  ⟨⟨rfl, rfl, rfl, by simp, rfl⟩,
    claim_C1_scenario ⟨0, 0⟩ (CalcEnv.mk 3600 0 0 0 35 4 8)
      (NetworkStatsDict.mk (some 1000000000)) rfl rfl rfl (by simp) rfl⟩

/-- Claim C8: every processed event increments `packet_count` by exactly 1;
a send-type event (type 1 or 3) adds its reported byte size to `bytes_sent`
and adds one packet and that byte size to the emitting process's bucket,
leaving `bytes_received` unchanged; a receive-type event (type 2) adds exactly
1024 to `bytes_received` and changes no per-process bucket. -/
theorem claim_C8_handle_event (st : MonitorState) (e : Event) :
    (handle_event st e).packet_count = st.packet_count + 1 ∧
    (e.event_type = 1 ∨ e.event_type = 3 →
      (handle_event st e).bytes_sent = st.bytes_sent + e.bytes ∧
      ((handle_event st e).process_stats e.comm).packets =
        (st.process_stats e.comm).packets + 1 ∧
      ((handle_event st e).process_stats e.comm).bytes =
        (st.process_stats e.comm).bytes + e.bytes ∧
      (handle_event st e).bytes_received = st.bytes_received) ∧
    (e.event_type = 2 →
      (handle_event st e).bytes_received = st.bytes_received + 1024 ∧
      (handle_event st e).process_stats = st.process_stats ∧
      (handle_event st e).bytes_sent = st.bytes_sent) := by
  refine ⟨?_, ?_, ?_⟩
  · by_cases h : e.event_type = 1 ∨ e.event_type = 3
    · simp [handle_event, h]
    · by_cases h2 : e.event_type = 2 <;> simp [handle_event, h, h2]
  · intro h
    simp [handle_event, h]
  · intro h2
    have hn : ¬(e.event_type = 1 ∨ e.event_type = 3) := by omega
    simp [handle_event, hn, h2]

/-- Witness for C8: a concrete TCP-send event and a concrete receive event
applied to the freshly initialised monitor state. -/
theorem claim_C8_handle_event_witness :
    ((Event.mk 1 500 "curl").event_type = 1 ∨
      (Event.mk 1 500 "curl").event_type = 3) ∧
    (handle_event initState (Event.mk 1 500 "curl")).bytes_sent =
      initState.bytes_sent + 500 ∧
    ((Event.mk 2 0 "curl").event_type = 2) ∧
    (handle_event initState (Event.mk 2 0 "curl")).bytes_received =
      initState.bytes_received + 1024 :=
  ⟨Or.inl rfl,
    ((claim_C8_handle_event initState (Event.mk 1 500 "curl")).2.1
      (Or.inl rfl)).1,
    rfl,
    ((claim_C8_handle_event initState (Event.mk 2 0 "curl")).2.2 rfl).1⟩

/-- Claim C7 counterexample: the source samples `psutil.cpu_percent` anew
inside `calculate_cpu_power`, independently of the sample reported as
`usage_percent`.  With the reported sample reading 0 and the power-computation
sample reading 100, the returned `power_watts` is 115, not
`50 + 65 * (usage_percent / 100) = 50`. -/
theorem claim_C7_power_usage_counterexample :
    ¬ ((get_carbon_metrics ⟨0, 0⟩ (CalcEnv.mk 3600 0 100 0 0 0 0)
          ⟨some 0⟩).1.cpu.power_watts =
        50 + 65 *
          ((get_carbon_metrics ⟨0, 0⟩ (CalcEnv.mk 3600 0 100 0 0 0 0)
            ⟨some 0⟩).1.cpu.usage_percent / 100)) := by
  simp only [get_carbon_metrics, calculate_cpu_power, calculate_total_energy,
    calculate_network_carbon]
  norm_num [IDLE_POWER, CPU_TDP, GRID_CARBON_INTENSITY, NETWORK_POWER_PER_GB]

/-- Claim C7 amended: `cpu.power_watts` equals
`50 + 65 * (p / 100)` where `p` is the CPU sample taken inside
`calculate_cpu_power` during the same call — a separate blocking sample that
may differ from the one reported as `cpu.usage_percent`.  Whenever the two
samples agree, the originally claimed equation holds; and with all sampled
inputs held fixed the outputs are deterministic (the embedding is a pure
function of state, environment and snapshot). -/
theorem claim_C7_power_formula (st : CalcState) (env : CalcEnv)
    (ns : NetworkStatsDict) :
    (get_carbon_metrics st env ns).1.cpu.power_watts =
      50 + 65 * (env.cpuSample2 / 100) ∧
    (env.cpuSample1 = env.cpuSample2 →
      (get_carbon_metrics st env ns).1.cpu.power_watts =
        50 + 65 * ((get_carbon_metrics st env ns).1.cpu.usage_percent / 100)) := by
  constructor
  · simp [get_carbon_metrics, calculate_cpu_power, IDLE_POWER, CPU_TDP]
  · intro h
    simp [get_carbon_metrics, calculate_cpu_power, IDLE_POWER, CPU_TDP, h]

/-- Witness for the amended C7 at an environment whose two relevant CPU
samples agree. -/
theorem claim_C7_power_formula_witness :
    (CalcEnv.mk 3600 20 20 20 0 0 0).cpuSample1 =
      (CalcEnv.mk 3600 20 20 20 0 0 0).cpuSample2 ∧
    (get_carbon_metrics ⟨0, 0⟩ (CalcEnv.mk 3600 20 20 20 0 0 0)
        ⟨some 0⟩).1.cpu.power_watts =
      50 + 65 *
        ((get_carbon_metrics ⟨0, 0⟩ (CalcEnv.mk 3600 20 20 20 0 0 0)
          ⟨some 0⟩).1.cpu.usage_percent / 100) :=
  ⟨rfl, (claim_C7_power_formula ⟨0, 0⟩ (CalcEnv.mk 3600 20 20 20 0 0 0)
    ⟨some 0⟩).2 rfl⟩

/-- Claim C9: `get_process_list` silently skips processes whose info read
raises (they simply do not appear in the result — in the embedding the
function is total on every enumeration, so no exception ever reaches the
caller), the result is sorted in descending order of CPU usage, and its
length is at most 20. -/
theorem claim_C9_process_list (procs : List ProcEntry) :
    (get_process_list procs).length ≤ 20 ∧
    List.Sorted cpuGe (get_process_list procs) ∧
    ∀ x ∈ get_process_list procs, ∃ p ∈ procs, p.ok = true ∧ p.info = x := by
  refine ⟨List.length_take_le 20 _, ?_, ?_⟩
  · exact List.Pairwise.sublist (List.take_sublist 20 _)
      (List.sorted_insertionSort cpuGe _)
  · intro x hx
    simp only [get_process_list] at hx
    have hx2 := List.mem_of_mem_take hx
    rw [List.mem_insertionSort] at hx2
    rcases List.mem_filterMap.mp hx2 with ⟨p, hp, hpe⟩
    split_ifs at hpe with hok
    exact ⟨p, hp, hok, Option.some_inj.mp hpe⟩

/-- Witness for C9 on a concrete enumeration with one inaccessible process:
the highest-CPU accessible process appears in the result and originates from
an accessible entry of the enumeration. -/
theorem claim_C9_process_list_witness :
    ProcInfo.mk 3 "chrome" 7 1 ∈
      get_process_list
        [ProcEntry.mk true (ProcInfo.mk 1 "bash" 5 1),
         ProcEntry.mk false (ProcInfo.mk 2 "ghost" 9 1),
         ProcEntry.mk true (ProcInfo.mk 3 "chrome" 7 1)] ∧
    ∃ p ∈ [ProcEntry.mk true (ProcInfo.mk 1 "bash" 5 1),
           ProcEntry.mk false (ProcInfo.mk 2 "ghost" 9 1),
           ProcEntry.mk true (ProcInfo.mk 3 "chrome" 7 1)],
      p.ok = true ∧ p.info = ProcInfo.mk 3 "chrome" 7 1 :=
  ⟨by decide,
    (claim_C9_process_list
      [ProcEntry.mk true (ProcInfo.mk 1 "bash" 5 1),
       ProcEntry.mk false (ProcInfo.mk 2 "ghost" 9 1),
       ProcEntry.mk true (ProcInfo.mk 3 "chrome" 7 1)]).2.2
      (ProcInfo.mk 3 "chrome" 7 1) (by decide)⟩

/-- Claim C4 evaluation at the failing input.  `start_monitoring` does return
`false` and never propagates when initialization fails, and when `BPF`
construction itself fails the subsequent `get_stats` does mirror the OS
counters.  But when construction succeeds and an `attach_kprobe` call raises
(environment `⟨true, false, true, true⟩`), `self.bpf` has already been
assigned, so `get_stats` skips the psutil fallback branch and returns the
accumulated counters — all zero, with no event thread running — instead of a
snapshot mirrored from the OS counters (here `bytes_sent = 11111`), despite
the code printing that it is falling back to psutil monitoring. -/
theorem claim_C4_attach_failure_no_fallback :
    (start_monitoring initState (BpfEnv.mk false false false false)).1 = false ∧
    (get_stats (start_monitoring initState (BpfEnv.mk false false false false)).2
        (OsCounters.mk 10 20 11111 22222 3)).1.bytes_sent = 11111 ∧
    (start_monitoring initState (BpfEnv.mk true false true true)).1 = false ∧
    (start_monitoring initState (BpfEnv.mk true false true true)).2.bpf = true ∧
    (get_stats (start_monitoring initState (BpfEnv.mk true false true true)).2
        (OsCounters.mk 10 20 11111 22222 3)).1.bytes_sent = 0 ∧
    (get_stats (start_monitoring initState (BpfEnv.mk true false true true)).2
        (OsCounters.mk 10 20 11111 22222 3)).1.packet_count = 0 := by
  refine ⟨rfl, rfl, rfl, rfl, rfl, rfl⟩

/-- Processing one event never decreases the cumulative counters, and leaves
`self.bpf` untouched. -/
lemma handle_event_le (st : MonitorState) (e : Event) :
    st.bytes_sent ≤ (handle_event st e).bytes_sent ∧
    st.bytes_received ≤ (handle_event st e).bytes_received ∧
    st.packet_count ≤ (handle_event st e).packet_count ∧
    (handle_event st e).bpf = st.bpf := by
  by_cases h : e.event_type = 1 ∨ e.event_type = 3
  · simp [handle_event, h]
  · by_cases h2 : e.event_type = 2 <;> simp [handle_event, h, h2]

/-- Processing a batch of events never decreases the cumulative counters, and
leaves `self.bpf` untouched. -/
lemma process_events_le (events : List Event) (st : MonitorState) :
    st.bytes_sent ≤ (process_events st events).bytes_sent ∧
    st.bytes_received ≤ (process_events st events).bytes_received ∧
    st.packet_count ≤ (process_events st events).packet_count ∧
    (process_events st events).bpf = st.bpf := by
  induction events generalizing st with
  | nil => simp [process_events]
  | cons e es ih =>
    have h1 := handle_event_le st e
    have h2 := ih (handle_event st e)
    simp only [process_events, List.foldl_cons] at h2 ⊢
    exact ⟨le_trans h1.1 h2.1, le_trans h1.2.1 h2.2.1,
      le_trans h1.2.2.1 h2.2.2.1, h2.2.2.2.trans h1.2.2.2⟩

/-- How `get_stats` transforms the monitor state: `self.bpf` is untouched; in
kernel-probe mode the counters are untouched; in polling mode they are
overwritten with the OS readings. -/
lemma get_stats_state (st : MonitorState) (os : OsCounters) :
    (get_stats st os).2.bpf = st.bpf ∧
    (st.bpf = true →
      (get_stats st os).2.bytes_sent = st.bytes_sent ∧
      (get_stats st os).2.bytes_received = st.bytes_received ∧
      (get_stats st os).2.packet_count = st.packet_count) ∧
    (st.bpf = false →
      (get_stats st os).2.bytes_sent = os.bytes_sent ∧
      (get_stats st os).2.bytes_received = os.bytes_recv ∧
      (get_stats st os).2.packet_count = os.packets_sent + os.packets_recv) := by
  refine ⟨?_, ?_, ?_⟩
  · by_cases h : st.bpf <;> simp [get_stats, h]
  · intro h
    simp [get_stats, h]
  · intro h
    simp [get_stats, h]

/-- The snapshot returned by `get_stats` reports exactly the counters of the
post-call monitor state. -/
lemma get_stats_snapshot (st : MonitorState) (os : OsCounters) :
    (get_stats st os).1.bytes_sent = (get_stats st os).2.bytes_sent ∧
    (get_stats st os).1.bytes_received = (get_stats st os).2.bytes_received ∧
    (get_stats st os).1.packet_count = (get_stats st os).2.packet_count :=
  ⟨rfl, rfl, rfl⟩

/-- Claim C6: across successive `get_stats` calls of an uninterrupted run,
`bytes_sent`, `bytes_received` and `packet_count` are non-decreasing — in
kernel-probe mode (`self.bpf` truthy) because the event-ingestion handler only
adds to the counters, and in polling fallback mode because the snapshots
mirror the OS cumulative counters, which are themselves non-decreasing. -/
theorem claim_C6_monotonic_counters :
    (∀ (st : MonitorState) (os1 : OsCounters) (events : List Event)
        (os2 : OsCounters), st.bpf = true →
      (get_stats st os1).1.bytes_sent ≤
        (get_stats (process_events (get_stats st os1).2 events) os2).1.bytes_sent ∧
      (get_stats st os1).1.bytes_received ≤
        (get_stats (process_events (get_stats st os1).2 events) os2).1.bytes_received ∧
      (get_stats st os1).1.packet_count ≤
        (get_stats (process_events (get_stats st os1).2 events) os2).1.packet_count) ∧
    (∀ (st : MonitorState) (os1 os2 : OsCounters), st.bpf = false →
      os1.bytes_sent ≤ os2.bytes_sent →
      os1.bytes_recv ≤ os2.bytes_recv →
      os1.packets_sent + os1.packets_recv ≤ os2.packets_sent + os2.packets_recv →
      (get_stats st os1).1.bytes_sent ≤
        (get_stats (get_stats st os1).2 os2).1.bytes_sent ∧
      (get_stats st os1).1.bytes_received ≤
        (get_stats (get_stats st os1).2 os2).1.bytes_received ∧
      (get_stats st os1).1.packet_count ≤
        (get_stats (get_stats st os1).2 os2).1.packet_count) := by
  constructor
  · intro st os1 events os2 hbpf
    have hs1 := get_stats_snapshot st os1
    have h2 := get_stats_state st os1
    have hbpf2 : (get_stats st os1).2.bpf = true := h2.1.trans hbpf
    have hpe := process_events_le events (get_stats st os1).2
    have hbpf3 : (process_events (get_stats st os1).2 events).bpf = true :=
      hpe.2.2.2.trans hbpf2
    have h3 := get_stats_state (process_events (get_stats st os1).2 events) os2
    have hs3 := get_stats_snapshot (process_events (get_stats st os1).2 events) os2
    refine ⟨?_, ?_, ?_⟩
    · rw [hs1.1, hs3.1, (h3.2.1 hbpf3).1, (h2.2.1 hbpf).1]
      exact le_trans (le_of_eq ((h2.2.1 hbpf).1).symm) hpe.1
    · rw [hs1.2.1, hs3.2.1, (h3.2.1 hbpf3).2.1]
      exact hpe.2.1
    · rw [hs1.2.2, hs3.2.2, (h3.2.1 hbpf3).2.2]
      exact hpe.2.2.1
  · intro st os1 os2 hbpf h1 h2 h3
    have hs1 := get_stats_snapshot st os1
    have hst := get_stats_state st os1
    have hbpf2 : (get_stats st os1).2.bpf = false := hst.1.trans hbpf
    have hst2 := get_stats_state (get_stats st os1).2 os2
    have hs2 := get_stats_snapshot (get_stats st os1).2 os2
    refine ⟨?_, ?_, ?_⟩
    · rw [hs1.1, hs2.1, (hst.2.2 hbpf).1, (hst2.2.2 hbpf2).1]
      exact h1
    · rw [hs1.2.1, hs2.2.1, (hst.2.2 hbpf).2.1, (hst2.2.2 hbpf2).2.1]
      exact h2
    · rw [hs1.2.2, hs2.2.2, (hst.2.2 hbpf).2.2, (hst2.2.2 hbpf2).2.2]
      exact h3

/-- Witness for C6: a kernel-probe-mode run over one concrete send event, and
a polling-mode run over two concrete non-decreasing OS readings. -/
theorem claim_C6_monotonic_counters_witness :
    ((MonitorState.mk 1 2 3 0 (fun _ => ⟨0, 0⟩) true true).bpf = true ∧
      (get_stats (MonitorState.mk 1 2 3 0 (fun _ => ⟨0, 0⟩) true true)
          (OsCounters.mk 0 0 0 0 0)).1.bytes_sent ≤
        (get_stats
          (process_events
            (get_stats (MonitorState.mk 1 2 3 0 (fun _ => ⟨0, 0⟩) true true)
              (OsCounters.mk 0 0 0 0 0)).2
            [Event.mk 1 10 "curl"])
          (OsCounters.mk 0 0 0 0 0)).1.bytes_sent) ∧
    (initState.bpf = false ∧
      (OsCounters.mk 1 2 3 4 5).bytes_sent ≤ (OsCounters.mk 2 3 4 5 6).bytes_sent ∧
      (get_stats initState (OsCounters.mk 1 2 3 4 5)).1.bytes_sent ≤
        (get_stats (get_stats initState (OsCounters.mk 1 2 3 4 5)).2
          (OsCounters.mk 2 3 4 5 6)).1.bytes_sent) :=
  ⟨⟨rfl,
    (claim_C6_monotonic_counters.1 (MonitorState.mk 1 2 3 0 (fun _ => ⟨0, 0⟩) true true)
      (OsCounters.mk 0 0 0 0 0) [Event.mk 1 10 "curl"]
      (OsCounters.mk 0 0 0 0 0) rfl).1⟩,
   ⟨rfl, by decide,
    (claim_C6_monotonic_counters.2 initState (OsCounters.mk 1 2 3 4 5)
      (OsCounters.mk 2 3 4 5 6) rfl (by decide) (by decide) (by decide)).1⟩⟩

/-- Appending one element to the last-100 suffix of `p` and trimming yields
the last-100 suffix of `p ++ [x]`. -/
lemma appendTrim_drop {α : Type} (p : List α) (x : α) :
    appendTrim (p.drop (p.length - 100)) x =
      (p ++ [x]).drop ((p ++ [x]).length - 100) := by
  unfold appendTrim trimSeries
  rcases le_or_lt p.length 100 with h | h
  · have h0 : p.length - 100 = 0 := by omega
    rw [h0, List.drop_zero]
    split_ifs with hc
    · rfl
    · have h2 : (p ++ [x]).length - 100 = 0 := by
        simp only [List.length_append, List.length_singleton] at hc ⊢
        omega
      rw [h2, List.drop_zero]
  · have hlq : (p.drop (p.length - 100)).length = 100 := by
      rw [List.length_drop]
      omega
    have hc : 100 < (p.drop (p.length - 100) ++ [x]).length := by
      rw [List.length_append, hlq, List.length_singleton]
      omega
    rw [if_pos hc]
    have hamt : (p.drop (p.length - 100) ++ [x]).length - 100 = 1 := by
      rw [List.length_append, hlq, List.length_singleton]
    rw [hamt]
    have h1le : (1 : ℕ) ≤ (p.drop (p.length - 100)).length := by omega
    rw [List.drop_append_of_le_length h1le, List.drop_drop]
    have hamt2 : (p ++ [x]).length - 100 = p.length - 99 := by
      simp only [List.length_append, List.length_singleton]
      omega
    have hle2 : p.length - 99 ≤ p.length := by omega
    rw [hamt2, List.drop_append_of_le_length hle2]
    have hsum : p.length - 100 + 1 = p.length - 99 := by omega
    rw [hsum]

/-- Folding `appendTrim` over `xs` starting from the last-100 suffix of `p`
yields the last-100 suffix of `p ++ xs`. -/
lemma foldl_appendTrim_drop {α : Type} (xs p : List α) :
    xs.foldl appendTrim (p.drop (p.length - 100)) =
      (p ++ xs).drop ((p ++ xs).length - 100) := by
  induction xs generalizing p with
  | nil => simp
  | cons x xs ih =>
    rw [List.foldl_cons, appendTrim_drop]
    have h := ih (p ++ [x])
    rw [h]
    simp [List.append_assoc]

/-- Folding `appendTrim` from the empty series keeps exactly the last 100
appended values. -/
lemma foldl_appendTrim_nil {α : Type} (xs : List α) :
    xs.foldl appendTrim [] = xs.drop (xs.length - 100) := by
  have h := foldl_appendTrim_drop xs ([] : List α)
  simpa using h

/-- `collect_cycle` acts on each of the five series independently as
`appendTrim`, so the fold over cycles acts componentwise. -/
lemma foldl_collect_components (pts : List HistoryPoint) (hd : HistoricalData) :
    (pts.foldl collect_cycle hd).timestamps =
      (pts.map HistoryPoint.ts).foldl appendTrim hd.timestamps ∧
    (pts.foldl collect_cycle hd).cpu_usage =
      (pts.map HistoryPoint.cpu).foldl appendTrim hd.cpu_usage ∧
    (pts.foldl collect_cycle hd).network_bytes =
      (pts.map HistoryPoint.net).foldl appendTrim hd.network_bytes ∧
    (pts.foldl collect_cycle hd).carbon_emissions =
      (pts.map HistoryPoint.carbon).foldl appendTrim hd.carbon_emissions ∧
    (pts.foldl collect_cycle hd).energy_consumption =
      (pts.map HistoryPoint.energy).foldl appendTrim hd.energy_consumption := by
  induction pts generalizing hd with
  | nil => exact ⟨rfl, rfl, rfl, rfl, rfl⟩
  | cons pt pts ih =>
    simp only [List.foldl_cons, List.map_cons]
    exact ih (collect_cycle hd pt)

/-- Claim C3: after any number of collection cycles each history series holds
at most 100 entries; more precisely every series equals the last-100 suffix
of the full append sequence in original arrival order, so after more than 100
appends it holds exactly the last 100 appended values, oldest evicted
first. -/
theorem claim_C3_history_bounded (pts : List HistoryPoint) :
    ((run_collection pts).timestamps.length ≤ 100 ∧
      (run_collection pts).cpu_usage.length ≤ 100 ∧
      (run_collection pts).network_bytes.length ≤ 100 ∧
      (run_collection pts).carbon_emissions.length ≤ 100 ∧
      (run_collection pts).energy_consumption.length ≤ 100) ∧
    ((run_collection pts).timestamps =
        (pts.map HistoryPoint.ts).drop (pts.length - 100) ∧
      (run_collection pts).cpu_usage =
        (pts.map HistoryPoint.cpu).drop (pts.length - 100) ∧
      (run_collection pts).network_bytes =
        (pts.map HistoryPoint.net).drop (pts.length - 100) ∧
      (run_collection pts).carbon_emissions =
        (pts.map HistoryPoint.carbon).drop (pts.length - 100) ∧
      (run_collection pts).energy_consumption =
        (pts.map HistoryPoint.energy).drop (pts.length - 100)) := by
  have hc := foldl_collect_components pts emptyData
  have ht : (run_collection pts).timestamps =
      (pts.map HistoryPoint.ts).drop (pts.length - 100) := by
    rw [run_collection, hc.1]
    show (pts.map HistoryPoint.ts).foldl appendTrim [] = _
    rw [foldl_appendTrim_nil, List.length_map]
  have hcu : (run_collection pts).cpu_usage =
      (pts.map HistoryPoint.cpu).drop (pts.length - 100) := by
    rw [run_collection, hc.2.1]
    show (pts.map HistoryPoint.cpu).foldl appendTrim [] = _
    rw [foldl_appendTrim_nil, List.length_map]
  have hn : (run_collection pts).network_bytes =
      (pts.map HistoryPoint.net).drop (pts.length - 100) := by
    rw [run_collection, hc.2.2.1]
    show (pts.map HistoryPoint.net).foldl appendTrim [] = _
    rw [foldl_appendTrim_nil, List.length_map]
  have hca : (run_collection pts).carbon_emissions =
      (pts.map HistoryPoint.carbon).drop (pts.length - 100) := by
    rw [run_collection, hc.2.2.2.1]
    show (pts.map HistoryPoint.carbon).foldl appendTrim [] = _
    rw [foldl_appendTrim_nil, List.length_map]
  have he : (run_collection pts).energy_consumption =
      (pts.map HistoryPoint.energy).drop (pts.length - 100) := by
    rw [run_collection, hc.2.2.2.2]
    show (pts.map HistoryPoint.energy).foldl appendTrim [] = _
    rw [foldl_appendTrim_nil, List.length_map]
  refine ⟨⟨?_, ?_, ?_, ?_, ?_⟩, ht, hcu, hn, hca, he⟩ <;>
    simp only [ht, hcu, hn, hca, he, List.length_drop, List.length_map] <;> omega

end CarbonEmission
